import Mathlib

/-!
Shallow embedding of the emulator lifecycle code in `src/engine.py`
(classes `EmulatorCore` and `EmulatorGUI`), together with proofs about
the behaviour of its operations.

Modelling conventions:
* Python `bytes` become `List Nat`.
* SDL handles (window / renderer pointers) become `Option Nat`;
  `none` stands for both Python `None` and a NULL SDL pointer — both are
  falsy in the `if self.renderer:` / `if self.window:` guards.
* The outcome of external calls (`open`/`read`, `SDL_Init`,
  `SDL_CreateWindow`, `SDL_CreateRenderer`) is passed in as an explicit
  environment, since the Python code only branches on those results.
* Events put on the `queue.Queue` become values of `Event`; functions
  return the list of events they put, in order.
-/

/-- A tagged message put on the shared queue: the source pushes pairs
tagged with the strings for log and error; we model the tag as a
constructor. -/
inductive Event
  | log (msg : String)
  | error (msg : String)
deriving DecidableEq, Repr

/-- State of an `EmulatorCore` instance: the fields assigned in
`EmulatorCore.__init__` (engine.py lines 12-18). `queue` is external and
not part of the state; emitted events are returned by each operation. -/
structure CoreState where
  running : Bool
  rom_data : Option (List Nat)
  window : Option Nat
  renderer : Option Nat
deriving DecidableEq, Repr

/-- The state built by `EmulatorCore.__init__`: not running, no ROM, no
window, no renderer. -/
def coreInit : CoreState :=
  { running := false, rom_data := none, window := none, renderer := none }

/-- POSIX basename, modelling `Path(path).name` as used in the log
message of `load_rom`. -/
def pathSep : String := "/"

/-- The last component of a path. -/
def pathName (p : String) : String :=
  ((p.splitOn pathSep).getLast?).getD p

/-- `EmulatorCore.load_rom` (engine.py lines 30-38). The filesystem is
modelled as a function `fs` from a path to either the full file bytes or
the exception text raised by `open`/`read`. On success the bytes are
assigned to `rom_data`, one log event is put, and `True` is returned; on
any exception the state is untouched (the assignment never ran), one
error event is put, and `False` is returned. Returns
(new state, events put in order, return value). -/
def load_rom (fs : String → Except String (List Nat)) (path : String)
    (st : CoreState) : CoreState × List Event × Bool :=
  match fs path with
  | .ok bytes =>
      ({ st with rom_data := some bytes },
       [Event.log ("Loaded ROM: " ++ pathName path)], true)
  | .error e =>
      (st, [Event.error ("ROM loading failed: " ++ e)], false)

/-- C2: on every failing read, `load_rom` leaves the whole core state —
in particular any previously loaded `rom_data` — exactly as it was,
puts exactly one error event carrying the failure reason, and returns
failure. -/
theorem load_rom_failure (fs : String → Except String (List Nat))
    (path : String) (st : CoreState) (e : String) (h : fs path = .error e) :
    load_rom fs path st =
      (st, [Event.error ("ROM loading failed: " ++ e)], false) := by
  simp [load_rom, h]

/-- A sample exception text for a failing read. -/
def noSuchFile : String := "No such file"

/-- A sample path whose read fails. -/
def missingPath : String := "missing.z64"

/-- A sample readable ROM path. -/
def samplePath : String := "roms/test.z64"

/-- Witness for `load_rom_failure`: a concrete unreadable path against a
core that already holds a ROM; the ROM is untouched. -/
theorem load_rom_failure_witness :
    load_rom (fun _ => .error noSuchFile)
      missingPath { coreInit with rom_data := some [1, 2, 3] } =
      ({ coreInit with rom_data := some [1, 2, 3] },
       [Event.error ("ROM loading failed: " ++ noSuchFile)], false) :=
  load_rom_failure (fun _ => .error noSuchFile) missingPath
    { coreInit with rom_data := some [1, 2, 3] } noSuchFile rfl

/-- C7: on every successful read, `load_rom` stores exactly the file's
bytes as the ROM image, puts exactly one log event naming the loaded
file, and returns success. -/
theorem load_rom_success (fs : String → Except String (List Nat))
    (path : String) (st : CoreState) (bytes : List Nat)
    (h : fs path = .ok bytes) :
    load_rom fs path st =
      ({ st with rom_data := some bytes },
       [Event.log ("Loaded ROM: " ++ pathName path)], true) := by
  simp [load_rom, h]

/-- Witness for `load_rom_success`: a concrete readable file whose bytes
are stored verbatim, with one log event naming it. -/
theorem load_rom_success_witness :
    load_rom (fun _ => .ok [9, 8, 7]) samplePath coreInit =
      ({ coreInit with rom_data := some [9, 8, 7] },
       [Event.log ("Loaded ROM: " ++ pathName samplePath)], true) :=
  load_rom_success (fun _ => .ok [9, 8, 7]) samplePath coreInit
    [9, 8, 7] rfl

/-- Results of the SDL backend calls made by `init_video`
(engine.py lines 20-28): the return code of `SDL_Init`, the diagnostic
string `SDL_GetError` would produce, and the handles returned by
`SDL_CreateWindow` and `SDL_CreateRenderer` (with `none` for NULL). -/
structure SdlEnv where
  initRet : Int
  getError : String
  createWindow : Option Nat
  createRenderer : Option Nat
deriving DecidableEq, Repr

/-- `EmulatorCore.init_video` (engine.py lines 20-28): raises a
`RuntimeError` carrying the SDL diagnostic when `SDL_Init` returns
non-zero; otherwise stores whatever `SDL_CreateWindow` and
`SDL_CreateRenderer` returned, without checking either result. -/
def init_video (env : SdlEnv) (st : CoreState) : Except String CoreState :=
  if env.initRet ≠ 0 then
    .error ("SDL initialization failed: " ++ env.getError)
  else
    .ok { st with window := env.createWindow, renderer := env.createRenderer }

lemma init_video_ok {env : SdlEnv} (st : CoreState) (h : env.initRet = 0) :
    init_video env st =
      .ok { st with window := env.createWindow,
                    renderer := env.createRenderer } := by
  simp [init_video, h]

lemma init_video_err {env : SdlEnv} (st : CoreState) (h : env.initRet ≠ 0) :
    init_video env st =
      .error ("SDL initialization failed: " ++ env.getError) := by
  simp [init_video, h]

/-- An SDL environment in which the subsystem initializes and the window
is created, but renderer creation fails (returns NULL). -/
def envRendererFails : SdlEnv :=
  { initRet := 0, getError := "", createWindow := some 1,
    createRenderer := none }

/-- Counterexample to C5: when renderer creation fails (`none` = NULL),
`init_video` still returns success — it does not fail on a resource
creation failure — and it leaves the core with a valid window and an
absent renderer, the very state the claim rules out. -/
theorem init_video_counterexample :
    envRendererFails.createRenderer = none ∧
    init_video envRendererFails coreInit =
      .ok { coreInit with window := some 1, renderer := none } ∧
    ({ coreInit with window := some 1, renderer := none } : CoreState).window.isSome = true ∧
    ({ coreInit with window := some 1, renderer := none } : CoreState).renderer = none := by
  refine ⟨rfl, ?_, rfl, rfl⟩
  simp [init_video, envRendererFails, coreInit]

/-- C5 amended: `init_video` fails exactly when the video subsystem init
(`SDL_Init`) fails, and its failure message then contains the backend's
diagnostic string; the window/renderer creation results are stored
unchecked, so on success the handle pair is exactly whatever the backend
returned — possibly one valid and the other absent. -/
theorem init_video_amended (env : SdlEnv) (st : CoreState) :
    (env.initRet ≠ 0 →
      ∃ pre, init_video env st = .error (pre ++ env.getError)) ∧
    (env.initRet = 0 →
      init_video env st =
        .ok { st with window := env.createWindow,
                      renderer := env.createRenderer }) := by
  constructor
  · intro h
    exact ⟨"SDL initialization failed: ", init_video_err st h⟩
  · intro h
    exact init_video_ok st h

/-- An SDL environment in which `SDL_Init` itself fails. -/
def envInitFails : SdlEnv :=
  { initRet := 1, getError := "no video device", createWindow := none,
    createRenderer := none }

/-- Witness for `init_video_amended`: a concrete failing `SDL_Init`
yields an error message ending in the diagnostic, and a concrete
successful environment stores both creation results. -/
theorem init_video_amended_witness :
    (∃ pre, init_video envInitFails coreInit =
        .error (pre ++ envInitFails.getError)) ∧
    init_video envRendererFails coreInit =
      .ok { coreInit with window := some 1, renderer := none } :=
  ⟨(init_video_amended envInitFails coreInit).1 (by decide),
   (init_video_amended envRendererFails coreInit).2 rfl⟩

/-- One call into the SDL backend made by `shutdown`. -/
inductive SdlCall
  | destroyRenderer (h : Nat)
  | destroyWindow (h : Nat)
  | sdlQuit
deriving DecidableEq, Repr

/-- `EmulatorCore.shutdown` (engine.py lines 68-73): destroys the
renderer if one is stored, then the window if one is stored, then calls
`SDL_Quit` unconditionally. No field is assigned, so the handles stay in
the state. Returns (state after the call, backend calls in order). -/
def shutdown (st : CoreState) : CoreState × List SdlCall :=
  (st,
    (match st.renderer with
     | some r => [SdlCall.destroyRenderer r]
     | none => []) ++
    (match st.window with
     | some w => [SdlCall.destroyWindow w]
     | none => []) ++
    [SdlCall.sdlQuit])

/-- A core whose `init_video` fully succeeded: both handles present. -/
def coreBoth : CoreState :=
  { running := false, rom_data := none, window := some 5, renderer := some 7 }

/-- Counterexample to C6: the handles are not cleared by `shutdown`, so
a second call is not a no-op — it issues the same destroy calls on the
already-destroyed renderer and window again. -/
theorem shutdown_counterexample :
    (shutdown ((shutdown coreBoth).1)).2 ≠ [] ∧
    SdlCall.destroyRenderer 7 ∈ (shutdown ((shutdown coreBoth).1)).2 ∧
    ((shutdown coreBoth).1).renderer = some 7 := by
  refine ⟨by decide, by decide, rfl⟩

/-- C6 amended: an exhaustive characterization of the call trace of
`shutdown` over the four handle-presence cases. It destroys a present
renderer first, then a present window, then quits the video subsystem —
always, unconditionally, also when both handles are present; it never
destroys an absent handle, so it is safe after a partially or fully
failed `init_video`. The handles are not cleared (`(shutdown st).1 =
st`), so a repeated call issues exactly the same backend calls again
instead of being a no-op. -/
theorem shutdown_amended (st : CoreState) :
    (st.renderer = none → st.window = none →
      (shutdown st).2 = [SdlCall.sdlQuit]) ∧
    (∀ r, st.renderer = some r → st.window = none →
      (shutdown st).2 = [SdlCall.destroyRenderer r, SdlCall.sdlQuit]) ∧
    (∀ w, st.renderer = none → st.window = some w →
      (shutdown st).2 = [SdlCall.destroyWindow w, SdlCall.sdlQuit]) ∧
    (∀ r w, st.renderer = some r → st.window = some w →
      (shutdown st).2 =
        [SdlCall.destroyRenderer r, SdlCall.destroyWindow w,
         SdlCall.sdlQuit]) ∧
    (shutdown st).1 = st ∧
    (shutdown ((shutdown st).1)).2 = (shutdown st).2 := by
  refine ⟨?_, ?_, ?_, ?_, rfl, rfl⟩
  · intro hr hw
    simp [shutdown, hr, hw]
  · intro r hr hw
    simp [shutdown, hr, hw]
  · intro w hr hw
    simp [shutdown, hr, hw]
  · intro r w hr hw
    simp [shutdown, hr, hw]

/-- Witness for `shutdown_amended`: on a fully initialized core both
destroys are issued, renderer first, then the window, then the
subsystem quit; on the freshly initialized core (no handles) shutdown
only quits the subsystem — no destroy call on an absent handle. -/
theorem shutdown_amended_witness :
    (shutdown coreBoth).2 =
      [SdlCall.destroyRenderer 7, SdlCall.destroyWindow 5,
       SdlCall.sdlQuit] ∧
    (shutdown coreInit).2 = [SdlCall.sdlQuit] :=
  ⟨(shutdown_amended coreBoth).2.2.2.1 7 5 rfl rfl,
   (shutdown_amended coreInit).1 rfl rfl⟩

/-- Behaviour of one pass of the loop body in `EmulatorCore.run`
(engine.py lines 44-48): either the pass completes, recording whether a
quit-type SDL event (or an external stop request toggling the shared
flag) cleared the run flag during it, or some statement of
`process_input`/`execute_frame`/`render_frame` raises with the given
exception text. -/
inductive IterB
  | ok (quit : Bool)
  | fault (msg : String)
deriving DecidableEq, Repr

/-- The loop of `run` guarded by the run flag, driven by a finite script
of loop-body behaviours. Returns `some none` when the flag is observed
false and the loop exits normally, `some (some m)` when a body pass
raises `m`, and `none` when the script is exhausted while the flag is
still true — the loop would keep spinning, so no terminating outcome
exists for that script. -/
def loopExec : Bool → List IterB → Option (Option String)
  | false, _ => some none
  | true, [] => none
  | true, IterB.ok quit :: rest => loopExec (!quit) rest
  | true, IterB.fault m :: _ => some (some m)

/-- An observable action of `run` at the queue/lifecycle level: putting
an event on the shared queue, or calling `shutdown`. -/
inductive RunAct
  | put (e : Event)
  | shutdownCall
deriving DecidableEq, Repr

/-- How many times `shutdown` was called in a trace. -/
def countShutdown : List RunAct → Nat
  | [] => 0
  | RunAct.shutdownCall :: r => countShutdown r + 1
  | _ :: r => countShutdown r

/-- How many error events were put in a trace. -/
def countErr : List RunAct → Nat
  | [] => 0
  | RunAct.put (Event.error _) :: r => countErr r + 1
  | _ :: r => countErr r

/-- `EmulatorCore.run` (engine.py lines 40-52): sets the run flag, then
runs `init_video` and the loop under a try/except/finally — any
exception is put on the queue as one error event, and `shutdown` runs in
the `finally` block on every path. Returns `none` when the loop script
gives no terminating outcome, else (final state, action trace). -/
def run (env : SdlEnv) (script : List IterB) (st : CoreState) :
    Option (CoreState × List RunAct) :=
  match init_video env { st with running := true } with
  | .error msg =>
      some ((shutdown { st with running := true }).1,
            [RunAct.put (Event.error msg), RunAct.shutdownCall])
  | .ok stv =>
      match loopExec true script with
      | none => none
      | some none =>
          some ((shutdown { stv with running := false }).1,
                [RunAct.shutdownCall])
      | some (some m) =>
          some ((shutdown stv).1,
                [RunAct.put (Event.error m), RunAct.shutdownCall])

/-- C1: whenever `run` terminates, its trace contains exactly one
`shutdown` call, that call is the last action (so any error event
precedes it), at most one error event is put, and no error event is put
exactly on the clean path — video init succeeded and the loop exited
because the flag became false; on both fault paths (init failure,
loop-body fault) exactly one error event is put before shutdown. -/
theorem run_shutdown_every_path (env : SdlEnv) (script : List IterB)
    (st : CoreState) (out : CoreState × List RunAct)
    (h : run env script st = some out) :
    countShutdown out.2 = 1 ∧
    out.2.getLast? = some RunAct.shutdownCall ∧
    countErr out.2 ≤ 1 ∧
    (countErr out.2 = 0 ↔
      (env.initRet = 0 ∧ loopExec true script = some none)) := by
  by_cases hi : env.initRet = 0
  · rw [run, init_video_ok _ hi] at h
    rcases hl : loopExec true script with _ | o
    · rw [hl] at h
      cases h
    · rcases o with _ | m
      · rw [hl, Option.some_inj] at h
        subst h
        refine ⟨rfl, rfl, by simp [countErr], ?_⟩
        simp [countErr, hi]
      · rw [hl, Option.some_inj] at h
        subst h
        refine ⟨rfl, rfl, by simp [countErr], ?_⟩
        simp [countErr]
  · rw [run, init_video_err _ hi] at h
    rw [Option.some_inj] at h
    subst h
    refine ⟨rfl, rfl, by simp [countErr], ?_⟩
    simp [countErr, hi]

/-- A working SDL environment: init succeeds and both handles are
created. -/
def envAllOk : SdlEnv :=
  { initRet := 0, getError := "", createWindow := some 1,
    createRenderer := some 2 }

/-- The terminating outcome of `run` under `envAllOk` when the first
loop pass sees a quit event. -/
def runOutQuit : CoreState × List RunAct :=
  ({ running := false, rom_data := none, window := some 1,
     renderer := some 2 }, [RunAct.shutdownCall])

/-- Witness for `run_shutdown_every_path`: a concrete run in which the
first loop pass sees a quit event; the loop then exits, shutdown runs
exactly once as the last action, and no error event is put. -/
theorem run_shutdown_every_path_witness :
    countShutdown runOutQuit.2 = 1 ∧
    runOutQuit.2.getLast? = some RunAct.shutdownCall ∧
    countErr runOutQuit.2 ≤ 1 ∧
    (countErr runOutQuit.2 = 0 ↔
      (envAllOk.initRet = 0 ∧
        loopExec true [IterB.ok true] = some none)) :=
  run_shutdown_every_path envAllOk [IterB.ok true] coreInit runOutQuit
    (by decide)

/-- The shared `queue.Queue` as used by the program, modelled as the
FIFO list of pending events; `put` appends at the tail
(engine.py lines 34, 37, 50). The queue is unbounded, so `put` always
succeeds without waiting. -/
def qput (q : List Event) (e : Event) : List Event := q ++ [e]

/-- `queue.Queue.get_nowait`: removes and returns the head event, or
reports the queue empty — it never waits. -/
def get_nowait (q : List Event) : Option (Event × List Event) :=
  match q with
  | [] => none
  | e :: rest => some (e, rest)

lemma get_nowait_length {q : List Event} {e : Event} {rest : List Event}
    (h : get_nowait q = some (e, rest)) : rest.length < q.length := by
  cases q with
  | nil => cases h
  | cons a as =>
      simp [get_nowait] at h
      simp [h.2.symm]

/-- The drain loop of `check_queue` in `EmulatorGUI.setup_queue_handler`
(engine.py lines 136-148): repeatedly `get_nowait` until the queue
reports empty, collecting the events in the order removed. -/
def drainAll (q : List Event) : List Event :=
  match hq : get_nowait q with
  | none => []
  | some (e, rest) => e :: drainAll rest
termination_by q.length
decreasing_by
  exact get_nowait_length hq

lemma drainAll_eq_self (q : List Event) : drainAll q = q := by
  induction q with
  | nil =>
      rw [drainAll]
      split
      · rfl
      · next heq => cases heq
  | cons e rest ih =>
      rw [drainAll]
      split
      · next heq => cases heq
      · next e2 r2 heq =>
          cases heq
          rw [ih]

lemma foldl_qput (es : List Event) :
    ∀ q : List Event, List.foldl qput q es = q ++ es := by
  induction es with
  | nil => intro q; simp
  | cons e rest ih =>
      intro q
      simp only [List.foldl_cons, qput, ih (q ++ [e]), List.append_assoc,
        List.singleton_append]

/-- C4: for every sequence of events put on the channel, the drain loop
removes and returns exactly those events, in the FIFO order they were
put, and draining a channel with no pending events returns the empty
sequence. (`put` appends to the unbounded queue and the drain loop uses
the non-waiting `get_nowait`, so neither side ever waits.) -/
theorem drainAll_fifo :
    (∀ es : List Event, drainAll (List.foldl qput [] es) = es) ∧
    drainAll [] = [] := by
  constructor
  · intro es
    rw [foldl_qput es [], List.nil_append, drainAll_eq_self]
  · rw [drainAll_eq_self]

/-- A tk button state: NORMAL (enabled) or DISABLED. -/
inductive BtnState
  | normal
  | disabled
deriving DecidableEq, Repr

/-- State of the `EmulatorGUI` controller relevant to the lifecycle:
the current core instance (engine.py line 82: initially `None`), the
number of background run-loop threads spawned so far, the start/stop
button affordances (engine.py lines 110-124: both initially DISABLED),
and the UI log lines. Each call to `threading.Thread(...).start` in
`start_emulation` launches `EmulatorCore.run`, which loops while the
shared flag is true, so loops spawned without an intervening stop or
quit event are concurrently active; `spawnedLoops` counts them. -/
structure GUIState where
  core : Option CoreState
  spawnedLoops : Nat
  startBtn : BtnState
  stopBtn : BtnState
  uiLog : List String
deriving DecidableEq, Repr

/-- The controller state right after `EmulatorGUI.__init__`. -/
def guiInit : GUIState :=
  { core := none, spawnedLoops := 0, startBtn := BtnState.disabled,
    stopBtn := BtnState.disabled, uiLog := [] }

/-- `EmulatorGUI.start_emulation` (engine.py lines 160-169): guarded
only by `if self.emulator_core:` — whenever a core instance exists it
spawns a new background thread running the core's `run`, disables
start, enables stop, and logs; there is no check that a ROM is loaded
nor that a loop is already active. -/
def start_emulation (g : GUIState) : GUIState :=
  match g.core with
  | none => g
  | some _ =>
      { g with spawnedLoops := g.spawnedLoops + 1,
               startBtn := BtnState.disabled,
               stopBtn := BtnState.normal,
               uiLog := g.uiLog ++ ["Emulation started"] }

/-- `EmulatorGUI.stop_emulation` (engine.py lines 171-176): guarded only
by `if self.emulator_core:` — whenever a core instance exists it sets
the core's run flag false, enables start, disables stop, and logs;
there is no check that a loop is actually active. -/
def stop_emulation (g : GUIState) : GUIState :=
  match g.core with
  | none => g
  | some c =>
      { g with core := some { c with running := false },
               startBtn := BtnState.normal,
               stopBtn := BtnState.disabled,
               uiLog := g.uiLog ++ ["Emulation stopped"] }

/-- `EmulatorGUI.load_rom` (engine.py lines 150-158): if the dialog
returned a path, a **fresh** `EmulatorCore` is constructed and assigned
before the read is attempted; only if the core's `load_rom` returns
`True` are the buttons reconfigured. Returns
(new controller state, events put on the queue). -/
def gui_load_rom (fs : String → Except String (List Nat))
    (dialogPath : Option String) (g : GUIState) : GUIState × List Event :=
  match dialogPath with
  | none => (g, [])
  | some p =>
      match load_rom fs p coreInit with
      | (core1, events, ok) =>
          if ok then
            ({ g with core := some core1, startBtn := BtnState.normal,
                      stopBtn := BtnState.disabled }, events)
          else
            ({ g with core := some core1 }, events)

/-- A controller state holding a core with no ROM — reachable by a
failed load, which installs a fresh core before the read fails. -/
def guiNoRom : GUIState :=
  { core := some coreInit, spawnedLoops := 0,
    startBtn := BtnState.disabled, stopBtn := BtnState.disabled,
    uiLog := [] }

/-- A controller state holding a core with a loaded ROM and no loop
spawned, as left by a successful load. -/
def guiLoaded : GUIState :=
  { core := some { coreInit with rom_data := some [0, 1] },
    spawnedLoops := 0, startBtn := BtnState.normal,
    stopBtn := BtnState.disabled, uiLog := [] }

/-- Counterexample to C3: with a core present but no ROM loaded
(`rom_data = none`, the state a failed load leaves), `start_emulation`
is not a no-op — it spawns a run-loop thread and changes the stop
affordance; and two consecutive calls from a loaded state, with no
intervening stop, spawn two concurrent run loops. -/
theorem start_emulation_counterexample :
    (guiNoRom.core = some coreInit ∧ coreInit.rom_data = none) ∧
    (start_emulation guiNoRom).spawnedLoops = 1 ∧
    (start_emulation guiNoRom).stopBtn ≠ guiNoRom.stopBtn ∧
    (start_emulation (start_emulation guiLoaded)).spawnedLoops = 2 := by
  refine ⟨⟨rfl, rfl⟩, rfl, by decide, rfl⟩

/-- C3 amended: `start_emulation` is a no-op exactly when no core
instance exists (`emulator_core` is `None`); whenever a core exists —
even one holding no ROM, as after a failed load — every call spawns a
fresh background run loop on that core and flips the affordances, so
calling it twice without an intervening stop leaves two concurrently
spawned loops. -/
theorem start_emulation_amended (g : GUIState) :
    (g.core = none → start_emulation g = g) ∧
    (g.core.isSome →
      (start_emulation g).spawnedLoops = g.spawnedLoops + 1 ∧
      (start_emulation g).startBtn = BtnState.disabled ∧
      (start_emulation g).stopBtn = BtnState.normal ∧
      (start_emulation g).uiLog = g.uiLog ++ ["Emulation started"] ∧
      (start_emulation g).core = g.core) := by
  rcases hc : g.core with _ | c
  · exact ⟨fun _ => by simp [start_emulation, hc],
      fun hs => by simp at hs⟩
  · refine ⟨fun hn => Option.noConfusion hn, fun _ => ?_⟩
    simp [start_emulation, hc]

/-- Witness for `start_emulation_amended`: on the initial controller
state (no core yet), `start_emulation` changes nothing, and on a loaded
state it spawns exactly one loop. -/
theorem start_emulation_amended_witness :
    start_emulation guiInit = guiInit ∧
    (start_emulation guiLoaded).spawnedLoops =
      guiLoaded.spawnedLoops + 1 :=
  ⟨(start_emulation_amended guiInit).1 rfl,
   ((start_emulation_amended guiLoaded).2 rfl).1⟩

/-- Counterexample to C8: in a state where a ROM is loaded but no loop
is active (none was ever spawned and the core's run flag is false),
`stop_emulation` is not a no-op — it appends a line to the log. -/
theorem stop_emulation_counterexample :
    guiLoaded.spawnedLoops = 0 ∧
    (guiLoaded.core.map CoreState.running) = some false ∧
    stop_emulation guiLoaded ≠ guiLoaded ∧
    (stop_emulation guiLoaded).uiLog = ["Emulation stopped"] := by
  refine ⟨rfl, rfl, by decide, rfl⟩

/-- C8 amended: `stop_emulation` is a no-op exactly when no core
instance exists; whenever a core exists — whether or not any loop is
active — it sets the core's run flag false, enables start, disables
stop, and appends a stop line to the log. -/
theorem stop_emulation_amended (g : GUIState) :
    (g.core = none → stop_emulation g = g) ∧
    (∀ c, g.core = some c →
      (stop_emulation g).core = some { c with running := false } ∧
      (stop_emulation g).startBtn = BtnState.normal ∧
      (stop_emulation g).stopBtn = BtnState.disabled ∧
      (stop_emulation g).uiLog = g.uiLog ++ ["Emulation stopped"]) := by
  rcases hc : g.core with _ | c0
  · refine ⟨fun _ => by simp [stop_emulation, hc], ?_⟩
    intro c hcc
    exact Option.noConfusion hcc
  · refine ⟨fun hn => Option.noConfusion hn, ?_⟩
    intro c hcc
    injection hcc with h2
    subst h2
    simp [stop_emulation, hc]

/-- Witness for `stop_emulation_amended`: on the initial controller
state (no core yet) `stop_emulation` changes nothing, and on a loaded
state it clears the run flag and flips the affordances. -/
theorem stop_emulation_amended_witness :
    stop_emulation guiInit = guiInit ∧
    (stop_emulation guiLoaded).startBtn = BtnState.normal :=
  ⟨(stop_emulation_amended guiInit).1 rfl,
   ((stop_emulation_amended guiLoaded).2
      { coreInit with rom_data := some [0, 1] } rfl).2.1⟩

/-- C10: when the dialog returns a path and the read of that path
fails, the controller has already replaced its core with a fresh one,
so the active core afterwards holds no ROM (`rom_data = none`) even if
a ROM was loaded before — while both button affordances and the rest of
the controller state keep their prior values. -/
theorem gui_load_rom_failure_fresh_core
    (fs : String → Except String (List Nat)) (p : String) (g : GUIState)
    (e : String) (h : fs p = .error e) :
    (gui_load_rom fs (some p) g).1.core = some coreInit ∧
    coreInit.rom_data = none ∧
    (gui_load_rom fs (some p) g).1.startBtn = g.startBtn ∧
    (gui_load_rom fs (some p) g).1.stopBtn = g.stopBtn ∧
    (gui_load_rom fs (some p) g).1.uiLog = g.uiLog ∧
    (gui_load_rom fs (some p) g).1.spawnedLoops = g.spawnedLoops := by
  have hl := load_rom_failure fs p coreInit e h
  refine ⟨?_, rfl, ?_, ?_, ?_, ?_⟩ <;>
    simp [gui_load_rom, hl]

/-- Witness for `gui_load_rom_failure_fresh_core`: a concrete failed
load over a controller that had a loaded ROM and enabled start button;
the core is replaced by an empty one, the affordances stay. -/
theorem gui_load_rom_failure_fresh_core_witness :
    (gui_load_rom (fun _ => .error noSuchFile) (some missingPath)
        guiLoaded).1.core = some coreInit ∧
    coreInit.rom_data = none ∧
    (gui_load_rom (fun _ => .error noSuchFile) (some missingPath)
        guiLoaded).1.startBtn = guiLoaded.startBtn ∧
    (gui_load_rom (fun _ => .error noSuchFile) (some missingPath)
        guiLoaded).1.stopBtn = guiLoaded.stopBtn ∧
    (gui_load_rom (fun _ => .error noSuchFile) (some missingPath)
        guiLoaded).1.uiLog = guiLoaded.uiLog ∧
    (gui_load_rom (fun _ => .error noSuchFile) (some missingPath)
        guiLoaded).1.spawnedLoops = guiLoaded.spawnedLoops :=
  gui_load_rom_failure_fresh_core (fun _ => .error noSuchFile)
    missingPath guiLoaded noSuchFile rfl

/-- The synchronization mechanism used at one access site of the shared
run flag. -/
inductive SyncMech
  | plain
  | atomicOrLocked
deriving DecidableEq, Repr

/-- Inventory of every access to the shared run flag
(`EmulatorCore.running`) in the source, with the synchronization
mechanism each uses. The sites: `run` sets it true (engine.py line 41),
the loop condition reads it (line 44), the quit handler in
`process_input` writes it false (lines 57-58), and
`EmulatorGUI.stop_emulation` writes it false from the UI thread
(line 173). Each is a plain Python attribute access; the source contains
no `threading.Lock`, `threading.Event`, or other primitive guarding any
of them. -/
def runFlagAccesses : List (String × SyncMech) :=
  [("EmulatorCore.run entry write, line 41", SyncMech.plain),
   ("EmulatorCore.run loop-condition read, line 44", SyncMech.plain),
   ("EmulatorCore.process_input quit write, line 58", SyncMech.plain),
   ("EmulatorGUI.stop_emulation write, line 173", SyncMech.plain)]

/-- C9 (refuted by the code): every access to the shared run flag in
the source is a plain unsynchronized attribute access — none uses an
atomic or lock-protected primitive, contrary to the claim. -/
theorem runFlagAccesses_all_plain :
    runFlagAccesses.map Prod.snd =
      [SyncMech.plain, SyncMech.plain, SyncMech.plain, SyncMech.plain] :=
  rfl
